import Mathlib

/-!
Shallow embedding of the vs-stats library (src/vsstats): the data model
(Resolution, Subclip), the argument helper (_get_res), and the partitioners
(split_resolutions, split_mismatch).

Modelling conventions:
  - Python integers are modelled as Int.
  - A VapourSynth VideoNode is modelled as a Clip record carrying its
    whole-clip metadata (width, height, fps numerator and denominator, the
    optional format) and its list of frames; variable width, height or fps is
    the value 0 and variable format is none, as in VapourSynth.
  - Frame properties _DurationNum and _DurationDen are Option Int, read with
    the same defaults (0 and 1) the source passes to props.get.
  - Exceptions are modelled with Except Err.
  - The per-frame eval driver is modelled after the spec, section 5 and 6: the
    callback is invoked exactly once per frame index, in ascending order, over
    indices 0 .. num_frames - 1, threading the closed-over mutable state
    (the sealed list and the open-run slot) explicitly.
  - Python float quotient comparison (fps against duration) is modelled as
    exact rational equality by cross multiplication; the two coincide at every
    concrete input evaluated in this development (identical pairs, nonzero
    denominators).
  - The cached width and height properties mutate self.resolution on first
    read only when a stored component is 0; they are modelled as pure reads of
    the filled-in resolution value. In every scan the stored components come
    from real frames, whose dimensions are positive, so the fill-in path is
    not taken there.
-/

/-- Resolution, from src/vsstats/types.py: a NamedTuple of width and height. -/
structure Resolution where
  width : Int
  height : Int
deriving Repr, DecidableEq

/-- A VapourSynth VideoFrame as the library reads it: dimensions, format id,
and the two duration properties (absent properties modelled as none). -/
structure Frame where
  width : Int
  height : Int
  fmt : Int
  durNum : Option Int
  durDen : Option Int
deriving Repr, DecidableEq

/-- A VapourSynth VideoNode as the library reads it. Width, height and
fps_num are 0 when the corresponding property varies across frames, and fmt
is none for a variable-format node, as in VapourSynth. -/
structure Clip where
  width : Int
  height : Int
  fps_num : Int
  fps_den : Int
  fmt : Option Int
  frames : List Frame
deriving Repr, DecidableEq

/-- Errors raised by the library: ValueError from _get_res (InvalidArguments,
carrying the caller context), ValueError from the Subclip constructor
(InvalidRange), IndexError from Subclip.get_frame. -/
inductive Err where
  | invalidArguments (func : String)
  | invalidRange
  | indexError
deriving Repr, DecidableEq

def Clip.num_frames (c : Clip) : Int := c.frames.length

/-- Model of clip.get_frame(n) for an in-range index n; out-of-range access
raises engine-side in VapourSynth and is outside the scope of the theorems
below, so it is totalised with a default frame. -/
def Clip.frameAt (c : Clip) (n : Int) : Frame :=
  c.frames.getD n.toNat ⟨0, 0, 0, none, none⟩

/-- Model of clip[start:end] (std slicing) for 0 ≤ start ≤ end ≤ length, the
only shape the library uses: keeps whole-clip metadata, slices the frames. -/
def Clip.sliceClip (c : Clip) (s e : Int) : Clip :=
  { c with frames := (c.frames.drop s.toNat).take (e - s).toNat }

/-- Model of std.AssumeFPS: reassigns the nominal frame rate and the per-frame
duration properties. -/
def Clip.assumeFPS (c : Clip) (num den : Int) : Clip :=
  { c with fps_num := num, fps_den := den,
           frames := c.frames.map (fun f => { f with durNum := some num, durDen := some den }) }

/-- Model of resize.Bicubic with a format argument: forces the format on the
clip and its frames, keeping dimensions. -/
def Clip.withFormat (c : Clip) (fmt : Int) : Clip :=
  { c with fmt := some fmt, frames := c.frames.map (fun f => { f with fmt := fmt }) }

def Frame.transposeF (f : Frame) : Frame :=
  { f with width := f.height, height := f.width }

/-- Model of std.Transpose: swaps width and height on the clip and each frame. -/
def Clip.transpose (c : Clip) : Clip :=
  { c with width := c.height, height := c.width, frames := c.frames.map Frame.transposeF }

/-- Model of core.std.Splice(clips, mismatch=True): concatenates the frame
lists in order; whole-clip metadata is kept when all inputs agree on it and
becomes the variable sentinel otherwise. -/
def splice (cs : List Clip) : Clip :=
  match cs with
  | [] => { width := 0, height := 0, fps_num := 0, fps_den := 1, fmt := none, frames := [] }
  | c :: rest =>
      { width := if rest.all (fun x => x.width == c.width) then c.width else 0,
        height := if rest.all (fun x => x.height == c.height) then c.height else 0,
        fps_num := if rest.all (fun x => x.fps_num == c.fps_num && x.fps_den == c.fps_den) then c.fps_num else 0,
        fps_den := if rest.all (fun x => x.fps_num == c.fps_num && x.fps_den == c.fps_den) then c.fps_den else 1,
        fmt := if rest.all (fun x => x.fmt == c.fmt) then c.fmt else none,
        frames := (cs.map Clip.frames).flatten }

/-- The helper _get_res from src/vsstats/_helpers.py, line for line. The
Sequence branch of the res argument builds the same Resolution and is folded
into the descriptor case. -/
def _get_res (res : Option Resolution) (width height : Option Int) (func : String) :
    Except Err (Option Resolution) :=
  if res.isNone && width.isNone && height.isNone then .ok none
  else
    match res with
    | some r => .ok (some r)
    | none =>
        match width, height with
        | some w, some h => .ok (if 0 < w ∧ 0 < h then some ⟨w, h⟩ else none)
        | _, _ => .error (.invalidArguments func)

/-- The Subclip record from src/vsstats/types.py (field end renamed end_,
a Lean keyword). fmt is the format id; the constructor branch extracting id
from a VideoFormat object is collapsed into the id itself. -/
structure Subclip where
  clip : Clip
  fmt : Int
  fps_num : Int
  fps_den : Int
  start : Int
  end_ : Int
  resolution : Resolution
deriving Repr, DecidableEq

/-- The checked Subclip constructor: raises (ValueError, modelled
Err.invalidRange) when start is not strictly below end, otherwise stores the
arguments unchanged, with the resolution defaulting to the (0,0) sentinel. -/
def Subclip.init (clip : Clip) (fmt : Int) (fps_num fps_den start end_ : Int)
    (resolution : Option Resolution) : Except Err Subclip :=
  if start ≥ end_ then .error .invalidRange
  else .ok { clip := clip, fmt := fmt, fps_num := fps_num, fps_den := fps_den,
             start := start, end_ := end_, resolution := resolution.getD ⟨0, 0⟩ }

/-- Subclip.get_frame: translates the offset by start, raises IndexError when
the translated index reaches end, otherwise forwards to the backing clip. -/
def Subclip.get_frame (sc : Subclip) (n : Int) : Except Err Frame :=
  let n := sc.start + n
  if n ≥ sc.end_ then .error .indexError
  else .ok (sc.clip.frameAt n)

/-- The resolution value after the width cached property runs its fill-in
branch (taken only when the stored width is 0). -/
def Subclip.fillWidthRes (sc : Subclip) : Resolution :=
  if sc.resolution.width == 0 then
    let rh := sc.resolution.height
    let ch := sc.clip.height
    let f := sc.clip.frameAt sc.start
    if sc.clip.width != 0 then
      ⟨sc.clip.width, if rh > 0 then rh else if ch > 0 then ch else f.height⟩
    else
      ⟨f.width, if rh > 0 then rh else if ch > 0 then ch else f.height⟩
  else sc.resolution

/-- The width cached property: returns self.resolution.width after the
possible fill-in. -/
def Subclip.width (sc : Subclip) : Int := sc.fillWidthRes.width

/-- The resolution value after the height cached property runs its fill-in
branch (taken only when the stored height is 0). -/
def Subclip.fillHeightRes (sc : Subclip) : Resolution :=
  if sc.resolution.height == 0 then
    let rw := sc.resolution.width
    let cw := sc.clip.width
    let f := sc.clip.frameAt sc.start
    if sc.clip.height != 0 then
      ⟨if rw > 0 then rw else if cw > 0 then cw else f.width, sc.clip.height⟩
    else
      ⟨if rw > 0 then rw else if cw > 0 then cw else f.width, f.height⟩
  else sc.resolution

/-- The height cached property as written in the source: it returns
self.resolution.width (types.py line 155), not the height component. -/
def Subclip.height (sc : Subclip) : Int := sc.fillHeightRes.width

/-- Subclip.trim: the range sliced out of the backing clip, with the stored
frame rate and format forced onto it. -/
def Subclip.trim (sc : Subclip) : Clip :=
  ((sc.clip.sliceClip sc.start sc.end_).assumeFPS sc.fps_num sc.fps_den).withFormat sc.fmt

/-- The argument of Subclip.is_mismatch: a VideoNode, a VideoFrame, or
another Subclip. -/
inductive Observation where
  | node (c : Clip)
  | frame (f : Frame)
  | sub (s : Subclip)

/-- Python comparison of the two float quotients a / b and c / d, modelled as
exact rational equality by cross multiplication. The two semantics agree at
every input this development evaluates the predicate on. -/
def floatQuotEq (a b c d : Int) : Bool := a * d == c * b

/-- The frame comparison at the end of Subclip.is_mismatch (types.py lines
112-118): self.fps compared with the duration quotient of the frame
properties, then format id, then the width and height cached properties
against the frame dimensions. -/
def Subclip.mismatchFrame (sc : Subclip) (f : Frame) : Bool :=
  floatQuotEq sc.fps_num sc.fps_den (f.durNum.getD 0) (f.durDen.getD 1)
    && (sc.fmt == f.fmt)
    && (sc.width == f.width)
    && (sc.height == f.height)

/-- Subclip.is_mismatch, line for line. A Subclip argument is replaced by its
frame at offset 0 (in range by the start < end invariant). A VideoNode whose
format is none, or whose width, height or fps numerator is 0, returns False;
VapourSynth reports variable width, height and fps as 0, never as None, so
the None membership test of the source can fire only for the format. -/
def Subclip.is_mismatch (sc : Subclip) (other : Observation) : Bool :=
  match other with
  | .sub s => sc.mismatchFrame (s.clip.frameAt (s.start + 0))
  | .node c =>
      if c.fmt.isNone || c.width == 0 || c.height == 0 || c.fps_num == 0 then false
      else sc.mismatchFrame (c.frameAt 0)
  | .frame f => sc.mismatchFrame f

/-- State threaded through the split_resolutions frame eval: the sealed list
(reslist) and the open-run slot (curclip), the two nonlocal variables of the
source closure. -/
structure ScanState where
  reslist : List Subclip
  curclip : Option Subclip
deriving Repr, DecidableEq

/-- The Subclip the scans construct for a new stretch starting at frame n:
Subclip(clip, f.format.id, props _DurationNum (default 0), props _DurationDen
(default 1), n, n + 1, Resolution(f.width, f.height)). The constructor check
start < end passes, as n < n + 1. -/
def mkScanSub (clip : Clip) (f : Frame) (n : Int) : Subclip :=
  { clip := clip, fmt := f.fmt,
    fps_num := f.durNum.getD 0, fps_den := f.durDen.getD 1,
    start := n, end_ := n + 1,
    resolution := ⟨f.width, f.height⟩ }

/-- The body of split_resolutions._eval after the target-filter guard
(splitters.py lines 91-118). The resolution comparison at line 103 goes
through the width and height cached properties of the open Subclip. -/
def evalStepInner (clip : Clip) (st : ScanState) (n : Int) (f : Frame) : ScanState :=
  match st.curclip with
  | none => ⟨st.reslist, some (mkScanSub clip f n)⟩
  | some cur =>
      let st2 : ScanState :=
        if f.width != cur.width || f.height != cur.height then
          ⟨st.reslist ++ [{ cur with end_ := n }], some (mkScanSub clip f n)⟩
        else
          ⟨st.reslist, some { cur with end_ := n }⟩
      if n == clip.num_frames then
        match st2.curclip with
        | some c => ⟨st2.reslist ++ [c], some c⟩
        | none => st2
      else st2

/-- One invocation of split_resolutions._eval (splitters.py lines 75-120):
the target-filter guard seals and clears the open run on a non-matching
frame, otherwise the inner body runs. -/
def evalStep (clip : Clip) (res : Option Resolution) (st : ScanState) (n : Int) (f : Frame) :
    ScanState :=
  match res with
  | some r =>
      if f.width != r.width || f.height != r.height then
        match st.curclip with
        | some c => ⟨st.reslist ++ [c], none⟩
        | none => st
      else evalStepInner clip st n f
  | none => evalStepInner clip st n f

/-- The frame eval drive of split_resolutions, per the spec driver model:
the callback runs once per index in ascending order over 0 .. num_frames - 1. -/
def runScan (clip : Clip) (res : Option Resolution) : ScanState :=
  clip.frames.enum.foldl (fun st p => evalStep clip res st (Int.ofNat p.1) p.2) ⟨[], none⟩

/-- The tail of split_resolutions (lines 122-133): run the scan, then, when a
filter function was supplied, filter every trim, splice the results with
mismatch allowed, and repoint every sealed Subclip at the spliced clip;
finally None for an empty list, the list otherwise. -/
def scanAndFilter (clip : Clip) (res : Option Resolution)
    (filterfunc : Option (Clip → Clip)) : Except Err (Option (List Subclip)) :=
  let reslist := (runScan clip res).reslist
  match filterfunc with
  | none => .ok (if reslist.length = 0 then none else some reslist)
  | some ff =>
      let filtered := reslist.map (fun sc => ff sc.trim)
      let fclip := splice filtered
      let reslist := reslist.map (fun sc => { sc with clip := fclip })
      .ok (if reslist.length = 0 then none else some reslist)

/-- split_resolutions (splitters.py lines 18-133): resolve the target via
_get_res, try the constant-resolution fast paths (with the transpose
convenience match), otherwise scan frame by frame and optionally filter and
splice. Python truthiness of clip.width is the test against 0. -/
def split_resolutions (clip : Clip) (resolution : Option Resolution)
    (filterfunc : Option (Clip → Clip)) (width height : Option Int) :
    Except Err (Option (List Subclip)) :=
  match _get_res resolution width height ("split_resolutions") with
  | .error e => .error e
  | .ok res =>
      match res with
      | some r =>
          let clip := if clip.width == r.height && clip.height == r.width then clip.transpose else clip
          if clip.width == r.width && clip.height == r.height then
            match Subclip.init clip (clip.frameAt 0).fmt clip.fps_num clip.fps_den 0
                clip.num_frames (some ⟨clip.width, clip.height⟩) with
            | .error e => .error e
            | .ok sc => .ok (some [sc])
          else if clip.width != 0 && clip.height != 0 then
            .ok none
          else scanAndFilter clip (some r) filterfunc
      | none =>
          if clip.width != 0 && clip.height != 0 then
            match Subclip.init clip (clip.frameAt 0).fmt clip.fps_num clip.fps_den 0
                clip.num_frames (some ⟨clip.width, clip.height⟩) with
            | .error e => .error e
            | .ok sc => .ok (some [sc])
          else scanAndFilter clip none filterfunc

/-- State threaded through the split_mismatch frame eval: the sealed list
(splitlist) and the open-run slot (storeclip). -/
structure MState where
  splitlist : List Subclip
  storeclip : Option Subclip
deriving Repr, DecidableEq

/-- One invocation of split_mismatch._eval (splitters.py lines 253-284):
open a run if none is open (no early return in the source), then branch on
is_mismatch against the current frame, then the final-index append test. -/
def mstep (clip : Clip) (st : MState) (n : Int) (f : Frame) : MState :=
  let store := st.storeclip.getD (mkScanSub clip f n)
  let st2 : MState :=
    if store.is_mismatch (.frame f) then
      ⟨st.splitlist ++ [{ store with end_ := n }], some (mkScanSub clip f n)⟩
    else
      ⟨st.splitlist, some { store with end_ := n }⟩
  if n == clip.num_frames then
    match st2.storeclip with
    | some c => ⟨st2.splitlist ++ [c], some c⟩
    | none => st2
  else st2

/-- The frame eval drive of split_mismatch, per the spec driver model. -/
def runMScan (clip : Clip) : MState :=
  clip.frames.enum.foldl (fun st p => mstep clip st (Int.ofNat p.1) p.2) ⟨[], none⟩

/-- split_mismatch (splitters.py lines 230-295): scan, then, when a filter
function was supplied, filter every trim, splice with mismatch allowed and
repoint every sealed Subclip at the spliced clip; the list is returned as is
(no None wrapping). The source rebinds the local clip to the FrameEval node
before the drive; the model keeps the scanned source as the backing clip,
which is what every field of the result is compared against here. -/
def split_mismatch (clip : Clip) (filterfunc : Option (Clip → Clip)) : List Subclip :=
  let splitlist := (runMScan clip).splitlist
  match filterfunc with
  | none => splitlist
  | some ff =>
      let fclip := splice (splitlist.map (fun sc => ff sc.trim))
      splitlist.map (fun sc => { sc with clip := fclip })

/-! Concrete inputs used by the theorems below. Frame dimensions are positive,
as for every real VapourSynth frame. -/

def frameA : Frame := ⟨640, 480, 1, some 1001, some 24000⟩

def frameB : Frame := ⟨1280, 720, 1, some 1001, some 24000⟩

/-- A variable-resolution clip of five frames: 640x480, 640x480, 1280x720,
1280x720, 1280x720 (the concrete scenario of the spec, section 8). -/
def varClip5 : Clip := ⟨0, 0, 0, 1, none, [frameA, frameA, frameB, frameB, frameB]⟩

/-- A variable-resolution clip of a single frame. -/
def varClip1 : Clip := ⟨0, 0, 0, 1, none, [frameA]⟩

/-- A variable-resolution clip of two frames of equal resolution. -/
def varClip2 : Clip := ⟨0, 0, 0, 1, none, [frameA, frameA]⟩

def frameSq : Frame := ⟨100, 100, 1, some 30, some 1⟩

def sqClip : Clip := ⟨100, 100, 30, 1, some 1, [frameSq]⟩

/-- A Subclip whose stored properties agree with frameSq on every component. -/
def subSq : Subclip := ⟨sqClip, 1, 30, 1, 0, 1, ⟨100, 100⟩⟩

/-- A variable node: width, height and fps report 0 and the format is none. -/
def varNode : Clip := ⟨0, 0, 0, 1, none, [frameSq]⟩

/-- Claim C1: the intervals returned by split_resolutions on a variable
sequence partition the index range. On the five frame scenario with no target
the code returns the intervals (0,1),(1,2),(2,3),(3,4): every equal-resolution
non-square neighbour is split (the height property reads the width component)
and the final open run is never sealed (the final-index test compares against
num_frames, which the zero-based index never reaches), so index 4 is not
covered and the result is not a partition of the range 0 to 5. -/
theorem C1_partition_coverage_fails :
    (split_resolutions varClip5 none none none none).map
      (fun o => o.map (List.map (fun sc => (sc.start, sc.end_)))) =
      .ok (some [(0, 1), (1, 2), (2, 3), (3, 4)]) := by rfl

/-- Claim C2: is_mismatch should hold exactly when some compared property
differs. The code returns the match predicate instead: on an observation
agreeing with the Subclip on every component it returns true, and on a
variable node (which the claim calls a mismatch by definition) it returns
false. -/
theorem C2_mismatch_sense_inverted :
    subSq.is_mismatch (.frame frameSq) = true ∧
    subSq.is_mismatch (.node varNode) = false := by decide

/-- Claim C3: a single-frame variable sequence should yield exactly one Run
spanning index 0 to 1. The code returns None: the open-a-run branch returns
before the final-index test, and that test compares the index against
num_frames, a value the zero-based index never reaches, so the run opened at
frame 0 is never sealed and the list stays empty. -/
theorem C3_single_frame_yields_none :
    split_resolutions varClip1 none none none none = .ok none := by rfl

/-- A Subclip with an explicitly set, non-sentinel resolution 2x3. -/
def subRes23 : Subclip := ⟨varNode, 1, 30, 1, 0, 1, ⟨2, 3⟩⟩

/-- Claim C4: with a set descriptor the width accessor returns the width
component (it does), but the height accessor should return the height
component 3; the code returns self.resolution.width, hence 2. -/
theorem C4_height_accessor_returns_width :
    subRes23.resolution = ⟨2, 3⟩ ∧ subRes23.width = 2 ∧ subRes23.height = 2 := by decide

/-- Claim C5, counterexample: with no descriptor and both width and height
supplied but width non-positive, the claim demands an InvalidArguments
failure; the helper instead silently returns the no-filter value None. -/
theorem C5_counterexample_silent_none :
    _get_res none (some 0) (some 5) ("split_resolutions") = .ok none := by rfl

/-- The scan state after frame 0 of the five frame scenario: one open run
covering index 0, nothing sealed. -/
def st6 : ScanState := ⟨[], some (mkScanSub varClip5 frameA 0)⟩

/-- Claim C6: a frame whose dimensions equal the open run descriptor should
extend the open run to end at n + 1. At n = 1 with descriptor and frame both
640x480 the code instead seals the open run as the interval (0,1) and opens a
fresh run (1,2): the height property of the open run reads the width
component 640, so the 480-high frame is classified as a boundary; and even on
the extension branch the code writes end = n, not n + 1. -/
theorem C6_step_seals_instead_of_extending :
    evalStep varClip5 none st6 1 frameA =
      ⟨[{ mkScanSub varClip5 frameA 0 with end_ := 1 }],
       some (mkScanSub varClip5 frameA 1)⟩ := by decide

/-- Claim C5, amended: with no explicit descriptor, supplying exactly one of
width and height fails with an InvalidArguments error identifying the caller
context; supplying both with at least one non-positive silently returns the
no-filter value None rather than failing. -/
theorem C5_get_res_amended (width height : Option Int) (w h : Int) (fn : String)
    (hone : width.isNone ≠ height.isNone) (hnp : ¬(0 < w ∧ 0 < h)) :
    _get_res none width height fn = .error (.invalidArguments fn) ∧
    _get_res none (some w) (some h) fn = .ok none := by
  constructor
  · cases width <;> cases height <;> simp_all [_get_res]
  · simp [_get_res, hnp]

/-- Claim C5, witness for the amended statement at width 5 alone and at the
non-positive pair 0 and 7. -/
theorem C5_get_res_amended_witness :
    _get_res none (some 5) none ("split_resolutions") =
      .error (.invalidArguments ("split_resolutions")) ∧
    _get_res none (some 0) (some 7) ("split_resolutions") = .ok none :=
  ⟨(C5_get_res_amended (some 5) none 0 7 ("split_resolutions") (by decide) (by decide)).1,
   (C5_get_res_amended (some 5) none 0 7 ("split_resolutions") (by decide) (by decide)).2⟩

/-- Claim C8: constructing a Subclip with start at or past end fails with the
InvalidRange error and produces nothing; with start strictly below end it
succeeds and stores the given start and end unchanged (and the other
arguments, with the resolution defaulting to the sentinel). -/
theorem C8_init_range_check (clip : Clip) (fmt fps_num fps_den start end_ : Int)
    (res : Option Resolution) :
    (start ≥ end_ → Subclip.init clip fmt fps_num fps_den start end_ res =
      .error .invalidRange) ∧
    (start < end_ → Subclip.init clip fmt fps_num fps_den start end_ res =
      .ok { clip := clip, fmt := fmt, fps_num := fps_num, fps_den := fps_den,
            start := start, end_ := end_, resolution := res.getD ⟨0, 0⟩ }) := by
  constructor
  · intro hge
    simp [Subclip.init, hge]
  · intro hlt
    simp [Subclip.init, not_le.mpr hlt]

/-- An empty placeholder clip used as an inert backing reference. -/
def emptyClip : Clip := ⟨0, 0, 0, 1, none, []⟩

/-- Claim C8, witness: construction at start 5, end 5 fails with InvalidRange
and construction at start 0, end 2 stores both bounds unchanged. -/
theorem C8_init_range_check_witness :
    Subclip.init emptyClip 1 30 1 5 5 none = .error .invalidRange ∧
    Subclip.init emptyClip 1 30 1 0 2 none =
      .ok ⟨emptyClip, 1, 30, 1, 0, 2, ⟨0, 0⟩⟩ :=
  ⟨(C8_init_range_check emptyClip 1 30 1 5 5 none).1 (by decide),
   (C8_init_range_check emptyClip 1 30 1 0 2 none).2 (by decide)⟩

/-- Claim C10: Subclip.get_frame fails with IndexError exactly when start + n
reaches end; any offset with start + n below end, negative offsets included,
is forwarded to the backing clip at index start + n with no error from the
Subclip itself. -/
theorem C10_get_frame_bounds (sc : Subclip) (n : Int) :
    (sc.get_frame n = .error .indexError ↔ sc.start + n ≥ sc.end_) ∧
    (sc.start + n < sc.end_ →
      sc.get_frame n = .ok (sc.clip.frameAt (sc.start + n))) := by
  constructor
  · constructor
    · intro h
      by_contra hlt
      simp [Subclip.get_frame, hlt] at h
    · intro h
      simp [Subclip.get_frame, h]
  · intro h
    simp [Subclip.get_frame, not_le.mpr h]

/-- A Subclip spanning frames 2 to 4 of an inert backing clip. -/
def sub24 : Subclip := ⟨emptyClip, 1, 30, 1, 2, 4, ⟨0, 0⟩⟩

/-- Claim C10, witness: on the run from 2 to 4, offset 2 is out of bounds and
the negative offset -1 resolves below start yet is forwarded without error. -/
theorem C10_get_frame_bounds_witness :
    sub24.get_frame 2 = .error .indexError ∧
    sub24.get_frame (-1) = .ok (sub24.clip.frameAt (sub24.start + (-1))) :=
  ⟨(C10_get_frame_bounds sub24 2).1.mpr (by decide),
   (C10_get_frame_bounds sub24 (-1)).2 (by decide)⟩

/-- Claim C7: a sequence whose constant declared resolution equals the target
with width and height swapped is transposed and returned as a single Run
spanning the whole sequence, and the trim of that Run has the target width
and height (post-transpose). -/
theorem C7_transpose_fast_path (c : Clip) (r : Resolution)
    (hw : c.width = r.height) (hh : c.height = r.width)
    (_hw0 : c.width ≠ 0) (_hh0 : c.height ≠ 0) (hn : 0 < c.frames.length) :
    ∃ sc : Subclip,
      split_resolutions c (some r) none none none = .ok (some [sc]) ∧
      sc.clip = c.transpose ∧ sc.start = 0 ∧ sc.end_ = c.num_frames ∧
      sc.trim.width = r.width ∧ sc.trim.height = r.height := by
  have h1 : _get_res (some r) none none ("split_resolutions") = .ok (some r) := rfl
  have hc1 : (c.width == r.height && c.height == r.width) = true := by
    simp [hw, hh]
  have hc2 : (c.transpose.width == r.width && c.transpose.height == r.height) = true := by
    simp [Clip.transpose, hw, hh]
  have hlen : ¬ ((0 : Int) ≥ c.transpose.num_frames) := by
    simp only [Clip.num_frames, Clip.transpose, List.length_map]
    omega
  refine ⟨{ clip := c.transpose, fmt := (c.transpose.frameAt 0).fmt,
            fps_num := c.transpose.fps_num, fps_den := c.transpose.fps_den,
            start := 0, end_ := c.transpose.num_frames,
            resolution := ⟨c.transpose.width, c.transpose.height⟩ }, ?_, rfl, rfl, ?_, ?_, ?_⟩
  · simp only [split_resolutions, h1, hc1, if_true, Subclip.init, hlen, if_false]
    simp [hc2]
  · simp [Clip.num_frames, Clip.transpose, List.length_map]
  · simp [Subclip.trim, Clip.withFormat, Clip.assumeFPS, Clip.sliceClip, Clip.transpose, hh]
  · simp [Subclip.trim, Clip.withFormat, Clip.assumeFPS, Clip.sliceClip, Clip.transpose, hw]

/-- A constant 720x1280 clip of two frames, matching the target 1280x720 with
width and height swapped. -/
def portraitClip : Clip :=
  ⟨720, 1280, 24, 1, some 1, [⟨720, 1280, 1, some 1, some 24⟩, ⟨720, 1280, 1, some 1, some 24⟩]⟩

/-- Claim C7, witness at the portrait clip and the target 1280x720. -/
theorem C7_transpose_fast_path_witness :
    ∃ sc : Subclip,
      split_resolutions portraitClip (some ⟨1280, 720⟩) none none none = .ok (some [sc]) ∧
      sc.clip = portraitClip.transpose ∧ sc.start = 0 ∧ sc.end_ = portraitClip.num_frames ∧
      sc.trim.width = 1280 ∧ sc.trim.height = 720 :=
  C7_transpose_fast_path portraitClip ⟨1280, 720⟩ rfl rfl (by decide) (by decide) (by decide)

/-- Claim C9: on the scan path with a filter function supplied, the returned
list is exactly the sealed scan output with every Subclip repointed at the one
spliced concatenation of the filtered trims: the clip reference is the only
field that changes, and start, end and descriptor keep their sealing-time
values. Stated for split_resolutions (general path, variable clip, no target)
and for split_mismatch. -/
theorem C9_reassembly_repoints_only (c : Clip) (ff gg : Clip → Clip)
    (hvar : c.width = 0 ∨ c.height = 0)
    (hne : (runScan c none).reslist ≠ []) :
    split_resolutions c none (some ff) none none =
      .ok (some ((runScan c none).reslist.map (fun sc =>
        { sc with clip := splice ((runScan c none).reslist.map (fun t => ff t.trim)) }))) ∧
    split_mismatch c (some gg) =
      (runMScan c).splitlist.map (fun sc =>
        { sc with clip := splice ((runMScan c).splitlist.map (fun t => gg t.trim)) }) := by
  constructor
  · have h1 : _get_res none none none ("split_resolutions") = .ok none := rfl
    have h2 : (c.width != 0 && c.height != 0) = false := by
      rcases hvar with h | h <;> simp [h]
    have h3 : ¬ (((runScan c none).reslist.map (fun sc : Subclip =>
        { sc with clip := splice ((runScan c none).reslist.map (fun t : Subclip => ff t.trim)) })).length = 0) := by
      simpa [List.length_map, List.length_eq_zero] using hne
    simp only [split_resolutions, h1, h2, if_false, scanAndFilter]
    rw [if_neg h3]
    simp
  · rfl

/-- Claim C9, witness at the two frame variable clip with the identity as the
filter function for both partitioners. -/
theorem C9_reassembly_repoints_only_witness :
    (runScan varClip2 none).reslist ≠ [] ∧
    split_resolutions varClip2 none (some (fun x => x)) none none =
      .ok (some ((runScan varClip2 none).reslist.map (fun sc =>
        { sc with clip := splice ((runScan varClip2 none).reslist.map (fun t => t.trim)) }))) := by
  refine ⟨by decide, ?_⟩
  exact (C9_reassembly_repoints_only varClip2 (fun x => x) (fun x => x)
    (Or.inl rfl) (by decide)).1
